import Mathlib

/-!
Verification development for the Medical-Appointment-Scheduler repository.

The embedding translates the authenticated request gateway (`src/utils.py`)
and the workflow orchestrator tools (`src/tools/patient_tools.py`,
`src/tools/appointment_tools.py`) into Lean.  JSON values flowing through the
system are modelled by `JVal`; Python exceptions that the code can raise (and
catch) are modelled by `PyExn` threaded through `Except`.  Machine time is
modelled by integer epoch seconds.
-/

/-- A JSON value as produced by `response.json()` and consumed by the tools.
Numbers are modelled as integers (the API's count/expiry fields are integral);
`null` doubles as Python `None`. -/
inductive JVal where
  | null
  | bool (b : Bool)
  | num (n : Int)
  | str (s : String)
  | arr (xs : List JVal)
  | obj (kvs : List (String × JVal))

/-- Python exception classes that the embedded code can raise or catch. -/
inductive PyExn where
  | attributeError
  | typeError
  | keyError

/-- Python truthiness of a JSON value (`if x:`). -/
def JVal.truthy : JVal → Bool
  | .null => false
  | .bool b => b
  | .num n => !(n == 0)
  | .str s => !(s == "")
  | .arr xs => !xs.isEmpty
  | .obj kvs => !kvs.isEmpty

/-- Python `d.get(k, dflt)`: on a mapping, look the key up with a default;
on any other value an `AttributeError` is raised. -/
def pyGetD (v : JVal) (k : String) (dflt : JVal) : Except PyExn JVal :=
  match v with
  | .obj kvs => .ok ((kvs.lookup k).getD dflt)
  | _ => .error .attributeError

/-- Python `len(x)`: defined for strings, lists and mappings; `TypeError`
otherwise. -/
def pyLen : JVal → Except PyExn Nat
  | .str s => .ok s.length
  | .arr xs => .ok xs.length
  | .obj kvs => .ok kvs.length
  | _ => .error .typeError

/-- Python `x[0]`: first element of a list, first character of a string
(as a one-character string), `KeyError` for a mapping (the integer key `0`
is not among its string keys), `TypeError` otherwise. -/
def pyIndex0 : JVal → Except PyExn JVal
  | .arr (x :: _) => .ok x
  | .arr [] => .error .keyError
  | .str s =>
    match s.toList with
    | c :: _ => .ok (.str (String.mk [c]))
    | [] => .error .keyError
  | .obj _ => .error .keyError
  | _ => .error .typeError

/-- Python iteration `for x in v`: lists yield their elements, strings yield
one-character strings, mappings yield their keys; other values raise
`TypeError`. -/
def iterJ : JVal → Except PyExn (List JVal)
  | .arr xs => .ok xs
  | .str s => .ok (s.toList.map (fun c => .str (String.mk [c])))
  | .obj kvs => .ok (kvs.map (fun p => .str p.1))
  | _ => .error .typeError

/-- Numeric view used by Python comparison/arithmetic: booleans are the
integers 0 and 1. -/
def JVal.asNum : JVal → Option Int
  | .num n => some n
  | .bool b => some (if b then 1 else 0)
  | _ => none

/-- Python `a > b` on JSON scalars: numeric comparison (booleans coerce to
integers), lexicographic comparison of strings, `TypeError` otherwise.
(Python also orders two lists elementwise; list-valued operands never occur
in the count fields this is applied to and fall into the error case.) -/
def pyGt (a b : JVal) : Except PyExn Bool :=
  match a.asNum, b.asNum with
  | some x, some y => .ok (decide (y < x))
  | _, _ =>
    match a, b with
    | .str s, .str t => .ok (decide (t < s))
    | _, _ => .error .typeError

/-- Python scalar equality `a == b` between hashable JSON scalars (booleans
compare equal to the integers 0/1, as in Python). -/
def pyScalarEq (a b : JVal) : Bool :=
  match a.asNum, b.asNum with
  | some x, some y => x == y
  | _, _ =>
    match a, b with
    | .null, .null => true
    | .str s, .str t => s == t
    | _, _ => false

/-- Whether a JSON value is hashable in Python (usable as a dict key). -/
def hashableB : JVal → Bool
  | .arr _ => false
  | .obj _ => false
  | _ => true

/-- Lookup in an association list built by a Python dict comprehension:
a later binding of an equal key overwrites an earlier one, so the last
matching entry wins. -/
def assocFindLast (kvs : List (JVal × JVal)) (k : JVal) : Option JVal :=
  match kvs with
  | [] => none
  | (k', v) :: rest =>
    match assocFindLast rest k with
    | some r => some r
    | none => if pyScalarEq k' k then some v else none

/-- ASCII lowercasing of one character, as applied by `str.lower()` to the
upstream error bodies (which are ASCII). -/
def charLower (c : Char) : Char :=
  if 'A' ≤ c && c ≤ 'Z' then Char.ofNat (c.toNat + 32) else c

/-- ASCII lowercasing of a character list. -/
def lowerChars (cs : List Char) : List Char := cs.map charLower

/-- Whether the first list is a prefix of the second. -/
def isPrefixChars : List Char → List Char → Bool
  | [], _ => true
  | _ :: _, [] => false
  | a :: as', b :: bs => a == b && isPrefixChars as' bs

/-- Python substring test `pat in hay` over character lists. -/
def containsSub (pat : List Char) : List Char → Bool
  | [] => isPrefixChars pat []
  | c :: rest => isPrefixChars pat (c :: rest) || containsSub pat rest

/-- Python `s.split(sep)` for a single-character separator. -/
def splitOnChar (sep : Char) : List Char → List (List Char)
  | [] => [[]]
  | c :: rest =>
    let r := splitOnChar sep rest
    if c == sep then [] :: r
    else
      match r with
      | [] => [[c]]
      | g :: gs => (c :: g) :: gs

/-- `location_header.split("/")[-1]`: the final '/'-delimited segment. -/
def lastSegment (s : String) : String :=
  String.mk ((splitOnChar '/' s.toList).getLastD [])

/-- The uniform failure envelope `{"success": False, "message": msg}`
returned by `make_api_request` and passed through by the tools. -/
def failEnv (m : String) : JVal :=
  .obj [("success", .bool false), ("message", .str m)]

/-- Rendering of a Python exception class name, used in the tools' broad
`except Exception` handlers.  Only the class is modelled, not CPython's full
message text; no theorem depends on this string. -/
def PyExn.text : PyExn → String
  | .attributeError => "AttributeError"
  | .typeError => "TypeError"
  | .keyError => "KeyError"

/-- The envelope a tool's outer `except Exception` handler produces. -/
def internalError (e : PyExn) : JVal :=
  failEnv ("An internal server error occurred: " ++ e.text)

/-- The per-conversation session cache (`ctx.session`).  `none` in a field
means the attribute has never been set (`getattr` would return its default);
`token_expiration` is only ever written with an integral epoch value. -/
structure Session where
  access_token : Option JVal := none
  token_expiration : Option Int := none
  x_ng_sessionid : Option JVal := none

/-- The value `getattr(ctx.session, "access_token", None)` reads. -/
def Session.tokenRead (s : Session) : JVal := s.access_token.getD .null

/-- The value `getattr(ctx.session, "token_expiration", 0)` reads. -/
def Session.expRead (s : Session) : Int := s.token_expiration.getD 0

/-- Outcome of the client-credentials POST against the auth URL:
`exn` covers a network failure, a non-2xx response (raised by
`raise_for_status`) and a body that fails JSON parsing; `body` is a 2xx
response with its parsed JSON body. -/
inductive TokenFetchOutcome where
  | exn
  | body (v : JVal)

/-- Python `time.time() + expires_in`: adding a JSON value to the clock;
non-numeric values raise `TypeError`. -/
def pyAddTime (now : Int) (v : JVal) : Except PyExn Int :=
  match v.asNum with
  | some n => .ok (now + n)
  | none => .error .typeError

/-- The token-cache freshness test `token and time.time() < token_expiration - 60`. -/
def cacheFresh (s : Session) (now : Int) : Bool :=
  s.tokenRead.truthy && decide (now < s.expRead - 60)

/-- `get_access_token` from `src/utils.py`, lines 32-67.  Returns the value
the Python function returns (`JVal.null` is Python `None`), the session after
the call, and the number of token-refresh POSTs issued (0 or 1).  On a 2xx
JSON-object body the code assigns `ctx.session.access_token` first and
`ctx.session.token_expiration` second, so a `TypeError` from
`time.time() + expires_in` leaves the first write in place. -/
def get_access_token (s : Session) (now : Int) (fetch : TokenFetchOutcome) :
    JVal × Session × Nat :=
  if cacheFresh s now then
    (s.tokenRead, s, 0)
  else
    match fetch with
    | .exn => (.null, s, 1)
    | .body v =>
      match v with
      | .obj kvs =>
        let access_token := (kvs.lookup "access_token").getD .null
        let expires_in := (kvs.lookup "expires_in").getD (.num 3600)
        match pyAddTime now expires_in with
        | .ok e =>
          (access_token,
           { s with access_token := some access_token, token_expiration := some e }, 1)
        | .error _ =>
          (.null, { s with access_token := some access_token }, 1)
      | _ => (.null, s, 1)

/-- Outcome of the HTTP call issued by `make_api_request`: a 2xx response
with its (already parsed) body, headers and status code; an
`httpx.HTTPStatusError` carrying the upstream status code and body text; or
any other exception (network failure, timeout, JSON decode failure). -/
inductive HttpOutcome where
  | ok (body : JVal) (headers : List (String × String)) (statusCode : Int)
  | statusError (statusCode : Int) (text : String)
  | exn

/-- The characters of the substring probed for in lower-cased error bodies. -/
def sessionPat : List Char := String.toList "session"

/-- The response-handling phase of `make_api_request` (`src/utils.py`,
lines 141-171): the try/except around the HTTP call.  On success it builds
the success envelope; on `HTTPStatusError` it inspects the lower-cased body
text and, if it contains "session", deletes the cached session id (the
`hasattr` guard means the result is the session with `x_ng_sessionid`
absent either way); on any other exception it returns the generic failure
envelope.  The second component is the session after the call. -/
def dispatchPhase (s : Session) (o : HttpOutcome) : JVal × Session :=
  match o with
  | .ok body headers code =>
    (.obj [("success", .bool true),
           ("message", .obj [("body", body),
                             ("headers", .obj (headers.map (fun p => (p.1, JVal.str p.2)))),
                             ("status_code", .num code)])], s)
  | .statusError code text =>
    let s' := if containsSub sessionPat (lowerChars text.toList)
              then { s with x_ng_sessionid := none } else s
    (failEnv ("API Error: " ++ toString code ++ " - " ++ text), s')
  | .exn =>
    (failEnv "An unexpected error occurred. Please try again later.", s)

/-- The result of a `make_api_request` call as observed by a tool: either the
failure envelope (carrying its message string) or the success envelope whose
`message` holds the parsed body, the response headers and the status code.
These are the only two shapes the dispatcher returns. -/
inductive ApiResult where
  | fail (msg : String)
  | ok (body : JVal) (headers : List (String × String)) (statusCode : Int)

/-- Truthiness of an optional string, e.g. a header value that may be absent. -/
def optTruthy : Option String → Bool
  | some s => !(s == "")
  | none => false

/-- `headers.get("location") or headers.get("Location")` with Python `or`
semantics (the first operand is kept only when truthy). -/
def locationHeader (headers : List (String × String)) : Option String :=
  let a := headers.lookup "location"
  if optTruthy a then a else headers.lookup "Location"

/-- `get_patient` from `src/tools/patient_tools.py`, lines 10-64.  The only
tool with no enclosing try/except, so a raised exception escapes the
operation; the embedding therefore returns `Except PyExn JVal`.  A failed
lookup call is passed through unchanged; on success the items are counted
and the single-match id extracted via `patients[0].get("id")`. -/
def get_patient (searchResp : ApiResult) : Except PyExn JVal :=
  match searchResp with
  | .fail m => .ok (failEnv m)
  | .ok body _ _ =>
    let patients : JVal :=
      match body with
      | .obj kvs =>
        if (kvs.lookup "items").isSome then (kvs.lookup "items").getD (.arr [])
        else .arr []
      | .arr xs => .arr xs
      | _ => .arr []
    match pyLen patients with
    | .error e => .error e
    | .ok n =>
      if n == 1 then
        match pyIndex0 patients with
        | .error e => .error e
        | .ok p0 =>
          match p0 with
          | .obj kvs =>
            .ok (.obj [("success", .bool true),
                       ("personId", (kvs.lookup "id").getD .null),
                       ("message", .str "Patient found successfully.")])
          | _ => .error .attributeError
      else if n > 1 then
        .ok (.obj [("success", .bool false), ("personId", .null),
                   ("message", .str "Multiple patients found. Please ask for a phone number to confirm.")])
      else
        .ok (.obj [("success", .bool false), ("personId", .null),
                   ("message", .str "Patient not found.")])

/-- The tail of `create_patient` from `src/tools/patient_tools.py`,
lines 101-123: how the response of the creating POST is turned into the
tool's envelope.  A missing or empty location-style header, and an empty
final path segment (the raised `ValueError`), both yield `success = False`
with a null `personId`. -/
def create_patient (resp : ApiResult) : JVal :=
  match resp with
  | .fail m => failEnv m
  | .ok _ headers _ =>
    let lh := locationHeader headers
    if !(optTruthy lh) then
      .obj [("success", .bool false), ("personId", .null),
            ("message", .str "Patient was created, but the new ID could not be retrieved.")]
    else
      let new_person_id := lastSegment (lh.getD "")
      if new_person_id == "" then
        .obj [("success", .bool false), ("personId", .null),
              ("message", .str "Patient was created, but failed to parse the new ID.")]
      else
        .obj [("success", .bool true), ("personId", .str new_person_id),
              ("message", .str "New patient created successfully.")]

/-- The tail of `book_appointment` from `src/tools/appointment_tools.py`,
lines 236-261: a missing or empty location header yields `success = True`
with a null `appointmentId`; otherwise the final path segment is the new id. -/
def book_appointment (resp : ApiResult) : JVal :=
  match resp with
  | .fail m => failEnv m
  | .ok _ headers _ =>
    let lh := locationHeader headers
    if !(optTruthy lh) then
      .obj [("success", .bool true), ("appointmentId", .null),
            ("message", .str "Appointment booked, but could not confirm the new ID.")]
    else
      .obj [("success", .bool true), ("appointmentId", .str (lastSegment (lh.getD ""))),
            ("message", .str "Appointment booked successfully.")]

/-- The linear scan over the fetched reasons list
(`src/tools/appointment_tools.py`, lines 292-297 and 368-373): the first
entry whose `name` equals the target yields its `id` (Python `None`, i.e.
`JVal.null`, when the entry has no id); a non-mapping entry raises
`AttributeError` at `reason.get`. -/
def reasonScan (target : String) : List JVal → Except PyExn JVal
  | [] => .ok .null
  | r :: rest =>
    match r with
    | .obj kvs =>
      match (kvs.lookup "name").getD .null with
      | .str n => if n == target then .ok ((kvs.lookup "id").getD .null) else reasonScan target rest
      | _ => reasonScan target rest
    | _ => .error .attributeError

/-- `reschedule_appointment` from `src/tools/appointment_tools.py`,
lines 267-347, as a function of the two dispatcher calls it can make: the
reasons fetch and the mutating POST to the reschedule sub-resource.  The
boolean records whether that POST was issued; when the scan finds no truthy
reason id the function returns before it.  The whole body runs inside a
broad `except Exception` that converts raised exceptions into the
internal-error envelope. -/
def reschedule_appointment (reasonsResp : ApiResult) (postResp : ApiResult) :
    JVal × Bool :=
  match reasonsResp with
  | .fail _ => (failEnv "Could not fetch reschedule reasons.", false)
  | .ok body _ _ =>
    match pyGetD body "items" (.arr []) with
    | .error e => (internalError e, false)
    | .ok items =>
      match iterJ items with
      | .error e => (internalError e, false)
      | .ok reasons =>
        match reasonScan "Patient Request" reasons with
        | .error e => (internalError e, false)
        | .ok rid =>
          if !rid.truthy then
            (failEnv "A valid reschedule reason ('Patient Request') could not be found.", false)
          else
            match postResp with
            | .fail m => (failEnv m, true)
            | .ok _ headers _ =>
              let lh := locationHeader headers
              if !(optTruthy lh) then
                (.obj [("success", .bool true), ("newAppointmentId", .null),
                       ("message", .str "Appointment rescheduled, but could not confirm the new ID.")], true)
              else
                (.obj [("success", .bool true),
                       ("newAppointmentId", .str (lastSegment (lh.getD ""))),
                       ("message", .str "Appointment rescheduled successfully.")], true)

/-- `cancel_appointment` from `src/tools/appointment_tools.py`,
lines 350-394, as a function of the reasons fetch and the mutating POST to
the cancel sub-resource, with the boolean again recording whether that POST
was issued.  `appointment_id` is the tool argument interpolated into the
confirmation message. -/
def cancel_appointment (appointment_id : String) (reasonsResp : ApiResult)
    (postResp : ApiResult) : JVal × Bool :=
  match reasonsResp with
  | .fail _ => (failEnv "Could not fetch cancellation reasons.", false)
  | .ok body _ _ =>
    match pyGetD body "items" (.arr []) with
    | .error e => (internalError e, false)
    | .ok items =>
      match iterJ items with
      | .error e => (internalError e, false)
      | .ok reasons =>
        match reasonScan "Appointment No Longer Needed" reasons with
        | .error e => (internalError e, false)
        | .ok rid =>
          if !rid.truthy then
            (failEnv "A valid cancellation reason ('Appointment No Longer Needed') could not be found.", false)
          else
            match postResp with
            | .fail m => (failEnv m, true)
            | .ok _ _ _ =>
              (.obj [("success", .bool true),
                     ("message", .str ("Appointment " ++ appointment_id ++ " canceled successfully."))], true)

/-- The availability filter of `get_available_slots`
(`src/tools/appointment_tools.py`, lines 106-114): each slot's counts are
read with default 0 and the slot is kept when `timeslot_count >
appointment_count`; a `TypeError` from the comparison skips the slot
(the loop's own handler), while `slot.get` on a non-mapping raises an
`AttributeError` that the loop's `except TypeError` does not catch. -/
def filterSlots : List JVal → Except PyExn (List JVal)
  | [] => .ok []
  | slot :: rest =>
    match slot with
    | .obj kvs =>
      let t := (kvs.lookup "timeslotCount").getD (.num 0)
      let a := (kvs.lookup "appointmentCount").getD (.num 0)
      match pyGt t a with
      | .ok true => (filterSlots rest).map (fun l => slot :: l)
      | .ok false => filterSlots rest
      | .error .typeError => filterSlots rest
      | .error e => .error e
    | _ => .error .attributeError

/-- The `timeslotCount` a slot contributes to the comparison, for slots whose
count fields are numeric or absent (absent reads as 0). -/
def slotTC : JVal → Int
  | .obj kvs =>
    match (kvs.lookup "timeslotCount").getD (.num 0) with
    | .num n => n
    | _ => 0
  | _ => 0

/-- The `appointmentCount` a slot contributes to the comparison, with the
same default. -/
def slotAC : JVal → Int
  | .obj kvs =>
    match (kvs.lookup "appointmentCount").getD (.num 0) with
    | .num n => n
    | _ => 0
  | _ => 0

/-- A well-typed slot entry: a mapping whose two count fields, when present,
are numbers. -/
def SlotWT : JVal → Bool
  | .obj kvs =>
    (match kvs.lookup "timeslotCount" with
     | none => true
     | some (.num _) => true
     | some _ => false)
    && (match kvs.lookup "appointmentCount" with
        | none => true
        | some (.num _) => true
        | some _ => false)
  | _ => false

/-- `get_available_slots` from `src/tools/appointment_tools.py`,
lines 77-120, as a function of the resolved `LOCATION_ID` credential and the
dispatcher's response to the slots query.  The whole body runs inside a broad
`except Exception` converting raised exceptions to the internal-error
envelope. -/
def get_available_slots (location_id : Option String) (resp : ApiResult) : JVal :=
  if !(optTruthy location_id) then
    failEnv "Search cannot be performed because no location is configured."
  else
    match resp with
    | .fail m => failEnv m
    | .ok body _ _ =>
      match pyGetD body "items" (.arr []) with
      | .error e => internalError e
      | .ok items =>
        match iterJ items with
        | .error e => internalError e
        | .ok slots =>
          match filterSlots slots with
          | .ok kept => .obj [("success", .bool true), ("available_slots", .arr kept)]
          | .error e => internalError e

/-- The `appointmentId` a summary entry contributes, as read by the dict
comprehension and the detail coroutine of `get_patient_appointments`. -/
def apptIdOf : JVal → JVal
  | .obj kvs => (kvs.lookup "appointmentId").getD .null
  | _ => .null

/-- The dict comprehension `{appt.get("appointmentId"): appt.get("categoryIds")
for appt in appointments_summary}`: a non-mapping entry raises
`AttributeError`, an unhashable key raises `TypeError`. -/
def buildCatMap : List JVal → Except PyExn (List (JVal × JVal))
  | [] => .ok []
  | s :: rest =>
    match s with
    | .obj kvs =>
      let k := (kvs.lookup "appointmentId").getD .null
      if hashableB k then
        (buildCatMap rest).map
          (fun m => (k, (kvs.lookup "categoryIds").getD .null) :: m)
      else .error .typeError
    | _ => .error .attributeError

/-- The inner coroutine `get_appointment_details` of `get_patient_appointments`
(`src/tools/appointment_tools.py`, lines 146-162), as a function of the
detail-fetch outcome for a given appointment id: an entry without a truthy
`appointmentId` yields `None` without fetching; a failed fetch yields `None`;
a successful fetch yields the response body.  (A non-mapping summary entry
cannot reach this point: the dict comprehension has already raised.) -/
def get_appointment_details (fetch : JVal → ApiResult) (appt : JVal) : Option JVal :=
  match appt with
  | .obj kvs =>
    let appt_id := (kvs.lookup "appointmentId").getD .null
    if appt_id.truthy then
      match fetch appt_id with
      | .fail _ => none
      | .ok body _ _ => some body
    else none
  | _ => none

/-- The filter `[res for res in detailed_results if res]`: drops `None`
results and falsy bodies. -/
def keepTruthy (o : Option JVal) : Option JVal :=
  o.bind (fun v => if v.truthy then some v else none)

/-- One iteration of the formatting loop of `get_patient_appointments`
(`src/tools/appointment_tools.py`, lines 174-201): produces the reshaped
record, or `none` when the iteration's `except (AttributeError, IndexError,
TypeError)` would drop the entry (non-mapping details, an unhashable id, a
non-string `appointmentDate`, a truthy non-string `beginTime`; a truthy
list-valued `beginTime` would instead be string-formatted by the f-string,
which is not modelled — the theorems only cover string-or-absent fields). -/
def format_appointment (catMap : List (JVal × JVal)) (ad : JVal) : Option JVal :=
  match ad with
  | .obj kvs =>
    let appt_id := (kvs.lookup "id").getD .null
    if hashableB appt_id then
      let category_ids := (assocFindLast catMap appt_id).getD .null
      match (kvs.lookup "appointmentDate").getD (.str ""), (kvs.lookup "beginTime").getD (.str "") with
      | .str ds, .str bts =>
        let date_part := String.mk ((splitOnChar 'T' ds.toList).headD [])
        let full_date :=
          if !(date_part == "") && !(bts == "") then
            date_part ++ "T" ++ String.mk (bts.toList.take 2) ++ ":"
              ++ String.mk (bts.toList.drop 2) ++ ":00"
          else "N/A"
        some (.obj [("appointmentId", appt_id),
                    ("fullAppointmentDate", .str full_date),
                    ("duration", (kvs.lookup "duration").getD .null),
                    ("locationName", (kvs.lookup "locationName").getD .null),
                    ("locationId", (kvs.lookup "locationId").getD .null),
                    ("resourceIds", (kvs.lookup "resourceIds").getD .null),
                    ("eventName", (kvs.lookup "eventName").getD .null),
                    ("eventId", (kvs.lookup "eventId").getD .null),
                    ("categoryIds", category_ids),
                    ("isCancelled", (kvs.lookup "isCancelled").getD .null)])
      | .str ds, bt =>
        let date_part := String.mk ((splitOnChar 'T' ds.toList).headD [])
        if !(date_part == "") && bt.truthy then none
        else
          some (.obj [("appointmentId", appt_id),
                      ("fullAppointmentDate", .str "N/A"),
                      ("duration", (kvs.lookup "duration").getD .null),
                      ("locationName", (kvs.lookup "locationName").getD .null),
                      ("locationId", (kvs.lookup "locationId").getD .null),
                      ("resourceIds", (kvs.lookup "resourceIds").getD .null),
                      ("eventName", (kvs.lookup "eventName").getD .null),
                      ("eventId", (kvs.lookup "eventId").getD .null),
                      ("categoryIds", category_ids),
                      ("isCancelled", (kvs.lookup "isCancelled").getD .null)])
      | _, _ => none
    else none
  | _ => none

/-- `get_patient_appointments` from `src/tools/appointment_tools.py`,
lines 123-210, as a function of the summary response and a map from
appointment id to the corresponding detail-fetch outcome (the concurrent
fan-out joins on all results, in summary order).  The body runs inside a
broad `except Exception` converting raised exceptions to the internal-error
envelope. -/
def get_patient_appointments (summaryResp : ApiResult) (fetch : JVal → ApiResult) : JVal :=
  match summaryResp with
  | .fail m => failEnv m
  | .ok body _ _ =>
    match pyGetD body "items" (.arr []) with
    | .error e => internalError e
    | .ok items =>
      if !items.truthy then
        .obj [("success", .bool true),
              ("message", .str "This patient has no upcoming appointments.")]
      else
        match iterJ items with
        | .error e => internalError e
        | .ok summaries =>
          match buildCatMap summaries with
          | .error e => internalError e
          | .ok catMap =>
            let detailed_results := summaries.map (get_appointment_details fetch)
            let valid := detailed_results.filterMap keepTruthy
            let formatted := valid.filterMap (format_appointment catMap)
            if formatted.isEmpty && !summaries.isEmpty then
              failEnv "Could not retrieve details for the patient's appointments."
            else
              .obj [("success", .bool true), ("appointments", .arr formatted)]

/-- Whether a dispatcher result is the failure envelope. -/
def isFail : ApiResult → Bool
  | .fail _ => true
  | .ok _ _ _ => false

/-- Whether an optional field value is absent or a string. -/
def strOrAbsent : Option JVal → Bool
  | none => true
  | some (.str _) => true
  | some _ => false

/-- A detail body the formatting loop reshapes without dropping: a mapping
whose `appointmentDate` and `beginTime` are strings or absent and whose `id`
is hashable. -/
def formattableWT : JVal → Bool
  | .obj kvs =>
    strOrAbsent (kvs.lookup "appointmentDate")
      && strOrAbsent (kvs.lookup "beginTime")
      && hashableB ((kvs.lookup "id").getD .null)
  | _ => false

/-- A well-formed summary entry: a mapping whose `appointmentId` is a
non-empty string. -/
def GoodSummary : JVal → Bool
  | .obj kvs =>
    match (kvs.lookup "appointmentId").getD .null with
    | .str i => !(i == "")
    | _ => false
  | _ => false

/-- A detail-fetch outcome covered by the listing claim: either the failure
envelope, or a success whose body is a truthy, formattable mapping. -/
def GoodDetail : ApiResult → Bool
  | .fail _ => true
  | .ok body _ _ => body.truthy && formattableWT body

/-- A reasons-list entry that is a mapping and is not named `target`. -/
def NoReasonNamed (target : String) : JVal → Bool
  | .obj kvs =>
    match (kvs.lookup "name").getD .null with
    | .str n => !(n == target)
    | _ => true
  | _ => false

/-- Whether a JSON value is a mapping. -/
def isObjB : JVal → Bool
  | .obj _ => true
  | _ => false

/-!  Theorems.  Each claim of the specification is settled by one theorem
below (with a witness instantiation when the theorem carries hypotheses,
and a counterexample where the claim fails on the code). -/

/-- C1 counterexample: when the creating POST succeeds but the location-style
header is missing, `create_patient` returns `success = False` — not the
`success = True` with unconfirmed id that the claim asserts. -/
theorem create_patient_missing_header_not_success :
    create_patient (.ok (.obj []) [] 201)
      = .obj [("success", .bool false), ("personId", .null),
              ("message", .str "Patient was created, but the new ID could not be retrieved.")] := rfl

/-- C1 (amended): on a successful upstream POST, `book_appointment` reports a
missing/empty location header as `success = True` with a null id and an
unconfirmed-id message, while `create_patient` reports the same condition —
and an empty final path segment — as `success = False` with a null id and a
message noting the record was created; when the header's final segment is
non-empty both tools return it as the new id with `success = True`. -/
theorem id_header_outcomes :
    (∀ (body : JVal) (headers : List (String × String)) (c : Int),
      optTruthy (locationHeader headers) = false →
      book_appointment (.ok body headers c)
        = .obj [("success", .bool true), ("appointmentId", .null),
                ("message", .str "Appointment booked, but could not confirm the new ID.")]
      ∧ create_patient (.ok body headers c)
        = .obj [("success", .bool false), ("personId", .null),
                ("message", .str "Patient was created, but the new ID could not be retrieved.")])
    ∧ (∀ (body : JVal) (headers : List (String × String)) (c : Int) (s : String),
        locationHeader headers = some s → (s == "") = false → lastSegment s = "" →
        create_patient (.ok body headers c)
          = .obj [("success", .bool false), ("personId", .null),
                  ("message", .str "Patient was created, but failed to parse the new ID.")])
    ∧ (∀ (body : JVal) (headers : List (String × String)) (c : Int) (s : String),
        locationHeader headers = some s → (s == "") = false → (lastSegment s == "") = false →
        create_patient (.ok body headers c)
          = .obj [("success", .bool true), ("personId", .str (lastSegment s)),
                  ("message", .str "New patient created successfully.")]
        ∧ book_appointment (.ok body headers c)
          = .obj [("success", .bool true), ("appointmentId", .str (lastSegment s)),
                  ("message", .str "Appointment booked successfully.")]) := by
  refine ⟨?_, ?_, ?_⟩
  · intro body headers c h
    exact ⟨by simp [book_appointment, h], by simp [create_patient, h]⟩
  · intro body headers c s hl hs hseg
    simp [create_patient, hl, optTruthy, hs, hseg]
  · intro body headers c s hl hs hseg
    constructor
    · simp [create_patient, hl, optTruthy, hs, hseg]
    · simp [book_appointment, hl, optTruthy, hs]

/-- C1 witness: a concrete successful POST whose response has no headers. -/
theorem id_header_outcomes_witness :
    optTruthy (locationHeader []) = false ∧
    book_appointment (.ok (.obj []) [] 201)
      = .obj [("success", .bool true), ("appointmentId", .null),
              ("message", .str "Appointment booked, but could not confirm the new ID.")] ∧
    create_patient (.ok (.obj []) [] 201)
      = .obj [("success", .bool false), ("personId", .null),
              ("message", .str "Patient was created, but the new ID could not be retrieved.")] :=
  ⟨rfl, (id_header_outcomes.1 (.obj []) [] 201 rfl).1,
        (id_header_outcomes.1 (.obj []) [] 201 rfl).2⟩

/-- C3: an upstream HTTP-status error whose lower-cased body text contains
"session" makes the dispatcher return the failure envelope reporting the
status code and body text, with the cached session id cleared and every
other session field unchanged. -/
theorem session_error_invalidation (s : Session) (code : Int) (text : String)
    (h : containsSub sessionPat (lowerChars text.toList) = true) :
    dispatchPhase s (.statusError code text)
      = (failEnv ("API Error: " ++ toString code ++ " - " ++ text),
         { access_token := s.access_token, token_expiration := s.token_expiration,
           x_ng_sessionid := none }) := by
  simp only [dispatchPhase, h, if_true]

/-- C3 witness: a concrete 403 whose body mentions the session. -/
theorem session_error_invalidation_witness :
    containsSub sessionPat (lowerChars ("Invalid Session").toList) = true ∧
    dispatchPhase ⟨some (.str "tok"), some 99, some (.str "sid")⟩
        (.statusError 403 "Invalid Session")
      = (failEnv ("API Error: " ++ toString (403 : Int) ++ " - " ++ "Invalid Session"),
         ⟨some (.str "tok"), some 99, none⟩) :=
  ⟨by decide,
   session_error_invalidation ⟨some (.str "tok"), some 99, some (.str "sid")⟩ 403
     "Invalid Session" (by decide)⟩

/-- C4: with a cached truthy token having strictly more than 60 seconds of
remaining validity the cached token is returned with no refresh and the
session untouched; otherwise (stale or absent token) exactly one refresh is
issued whatever its outcome. -/
theorem token_cache_behavior (s : Session) (now : Int) (fetch : TokenFetchOutcome) :
    (cacheFresh s now = true →
      get_access_token s now fetch = (s.tokenRead, s, 0))
    ∧ (cacheFresh s now = false →
      (get_access_token s now fetch).2.2 = 1) := by
  constructor
  · intro h; simp [get_access_token, h]
  · intro h
    cases fetch with
    | exn => simp [get_access_token, h]
    | body v =>
      cases v with
      | obj kvs =>
        simp only [get_access_token, h, Bool.false_eq_true, if_false]
        cases hpa : pyAddTime now ((kvs.lookup "expires_in").getD (.num 3600)) <;> simp [hpa]
      | null => simp [get_access_token, h]
      | bool b => simp [get_access_token, h]
      | num n => simp [get_access_token, h]
      | str t => simp [get_access_token, h]
      | arr xs => simp [get_access_token, h]

/-- C4 witness: a fresh cached token is served from the cache. -/
theorem token_cache_behavior_witness :
    cacheFresh ⟨some (.str "t"), some 2000, none⟩ 1000 = true ∧
    get_access_token ⟨some (.str "t"), some 2000, none⟩ 1000 .exn
      = (.str "t", ⟨some (.str "t"), some 2000, none⟩, 0) :=
  ⟨rfl, (token_cache_behavior ⟨some (.str "t"), some 2000, none⟩ 1000 .exn).1 rfl⟩

/-- C8 counterexample: a 2xx token response whose JSON body lacks
`access_token` makes `get_access_token` return `None` (the exchange failed)
while still overwriting the cached token with null and resetting the expiry
to `now + 3600` — partial state is written on a failing exchange. -/
theorem token_refresh_partial_write :
    (get_access_token ⟨some (.str "tok"), some 500, none⟩ 1000 (.body (.obj []))).1 = JVal.null
    ∧ (get_access_token ⟨some (.str "tok"), some 500, none⟩ 1000
        (.body (.obj []))).2.1.token_expiration = some 4600
    ∧ (get_access_token ⟨some (.str "tok"), some 500, none⟩ 1000
        (.body (.obj []))).2.1.access_token = some JVal.null
    ∧ (Session.mk (some (.str "tok")) (some 500) none).token_expiration = some 500
    ∧ (Session.mk (some (.str "tok")) (some 500) none).access_token = some (JVal.str "tok") :=
  ⟨rfl, rfl, rfl, rfl, rfl⟩

/-- C8 (amended): when the token exchange raises (network error, non-2xx,
unparseable body) or yields a non-mapping JSON body, `get_access_token`
returns `None` and writes nothing to the session; only a parsed JSON-object
body is written back, and that write happens even when the body has no
`access_token` field. -/
theorem token_failure_no_write (s : Session) (now : Int) (fetch : TokenFetchOutcome)
    (hstale : cacheFresh s now = false)
    (hf : fetch = .exn ∨ ∃ v, fetch = .body v ∧ isObjB v = false) :
    get_access_token s now fetch = (.null, s, 1) := by
  rcases hf with h | ⟨v, hv, hobj⟩
  · subst h; simp [get_access_token, hstale]
  · subst hv
    cases v <;> simp_all [get_access_token, hstale, isObjB]

/-- C8 witness: a network failure on a cold cache writes nothing. -/
theorem token_failure_no_write_witness :
    cacheFresh ⟨none, none, none⟩ 0 = false ∧
    get_access_token ⟨none, none, none⟩ 0 .exn = (.null, ⟨none, none, none⟩, 1) :=
  ⟨rfl, token_failure_no_write ⟨none, none, none⟩ 0 .exn rfl (Or.inl rfl)⟩

/-- C9: `get_patient` has no enclosing exception handler, and a successful
lookup whose body is `{"items": [null]}` (a single non-mapping match) makes
`patients[0].get("id")` raise an `AttributeError` that escapes the operation
instead of being converted into a failure envelope. -/
theorem get_patient_raises_on_nonmapping_item :
    get_patient (.ok (.obj [("items", .arr [JVal.null])]) [] 200)
      = .error .attributeError := rfl

/-- C6: on a successful lookup, zero matches yield the not-found failure with
null `personId`; exactly one (mapping) match yields success with that match's
id; two or more matches yield the ambiguity failure asking for a phone
number, never a silently picked match. -/
theorem patient_match_arity :
    (∀ (kvs : List (String × JVal)) (h : List (String × String)) (c : Int),
      kvs.lookup "items" = some (.arr []) →
      get_patient (.ok (.obj kvs) h c)
        = .ok (.obj [("success", .bool false), ("personId", .null),
                     ("message", .str "Patient not found.")]))
    ∧ (∀ (kvs : List (String × JVal)) (h : List (String × String)) (c : Int)
        (m : List (String × JVal)),
      kvs.lookup "items" = some (.arr [.obj m]) →
      get_patient (.ok (.obj kvs) h c)
        = .ok (.obj [("success", .bool true), ("personId", (m.lookup "id").getD .null),
                     ("message", .str "Patient found successfully.")]))
    ∧ (∀ (kvs : List (String × JVal)) (h : List (String × String)) (c : Int)
        (ms : List JVal),
      kvs.lookup "items" = some (.arr ms) → 2 ≤ ms.length →
      get_patient (.ok (.obj kvs) h c)
        = .ok (.obj [("success", .bool false), ("personId", .null),
                     ("message", .str "Multiple patients found. Please ask for a phone number to confirm.")])) := by
  refine ⟨?_, ?_, ?_⟩
  · intro kvs h c hi
    simp [get_patient, hi, pyLen]
  · intro kvs h c m hi
    simp [get_patient, hi, pyLen, pyIndex0]
  · intro kvs h c ms hi hlen
    have h1 : (ms.length == 1) = false := by
      rw [beq_eq_false_iff_ne]; omega
    have h2 : ms.length > 1 := by omega
    simp [get_patient, hi, pyLen, h1, h2]

/-- C6 witness: one unique match with id `p-1`. -/
theorem patient_match_arity_witness :
    ([("items", JVal.arr [JVal.obj [("id", JVal.str "p-1")]])].lookup "items"
        = some (JVal.arr [JVal.obj [("id", JVal.str "p-1")]]))
    ∧ get_patient (.ok (.obj [("items", .arr [.obj [("id", .str "p-1")]])]) [] 200)
      = .ok (.obj [("success", .bool true), ("personId", .str "p-1"),
                   ("message", .str "Patient found successfully.")]) :=
  ⟨rfl, patient_match_arity.2.1 [("items", .arr [.obj [("id", .str "p-1")]])] [] 200
          [("id", .str "p-1")] rfl⟩

/-- A reasons list all of whose entries are mappings not named `target`
scans to a null reason id. -/
theorem reasonScan_none (target : String) :
    ∀ (reasons : List JVal), (∀ r ∈ reasons, NoReasonNamed target r = true) →
    reasonScan target reasons = .ok .null := by
  intro reasons
  induction reasons with
  | nil => intro _; rfl
  | cons r rest ih =>
    intro h
    have hr := h r (by simp)
    have hrest : ∀ x ∈ rest, NoReasonNamed target x = true :=
      fun x hx => h x (List.mem_cons_of_mem _ hx)
    cases r with
    | obj kvs =>
      simp only [NoReasonNamed] at hr
      cases hn : (kvs.lookup "name").getD .null with
      | str n =>
        rw [hn] at hr
        simp only [reasonScan, hn]
        have hne : (n == target) = false := by simpa using hr
        simp [hne, ih hrest]
      | null => simp [reasonScan, hn, ih hrest]
      | bool b => simp [reasonScan, hn, ih hrest]
      | num k => simp [reasonScan, hn, ih hrest]
      | arr xs => simp [reasonScan, hn, ih hrest]
      | obj o => simp [reasonScan, hn, ih hrest]
    | null => simp [NoReasonNamed] at hr
    | bool b => simp [NoReasonNamed] at hr
    | num k => simp [NoReasonNamed] at hr
    | str t => simp [NoReasonNamed] at hr
    | arr xs => simp [NoReasonNamed] at hr

/-- C7: when the fetched reasons list has no entry named exactly
"Patient Request" (reschedule) or "Appointment No Longer Needed" (cancel),
the operation returns the descriptive failure envelope and the mutating POST
is never issued — the result does not depend on the POST response and the
issued flag is false. -/
theorem reason_resolution_guard :
    (∀ (reasons : List JVal) (kvs : List (String × JVal)) (h : List (String × String))
        (c : Int) (post : ApiResult),
      kvs.lookup "items" = some (.arr reasons) →
      (∀ r ∈ reasons, NoReasonNamed "Patient Request" r = true) →
      reschedule_appointment (.ok (.obj kvs) h c) post
        = (failEnv "A valid reschedule reason ('Patient Request') could not be found.", false))
    ∧ (∀ (aid : String) (reasons : List JVal) (kvs : List (String × JVal))
        (h : List (String × String)) (c : Int) (post : ApiResult),
      kvs.lookup "items" = some (.arr reasons) →
      (∀ r ∈ reasons, NoReasonNamed "Appointment No Longer Needed" r = true) →
      cancel_appointment aid (.ok (.obj kvs) h c) post
        = (failEnv "A valid cancellation reason ('Appointment No Longer Needed') could not be found.", false)) := by
  constructor
  · intro reasons kvs h c post hi hno
    simp [reschedule_appointment, pyGetD, hi, iterJ, reasonScan_none _ _ hno, JVal.truthy]
  · intro aid reasons kvs h c post hi hno
    simp [cancel_appointment, pyGetD, hi, iterJ, reasonScan_none _ _ hno, JVal.truthy]

/-- C7 witness: a reasons list holding only a differently named entry. -/
theorem reason_resolution_guard_witness :
    (∀ r ∈ [JVal.obj [("name", JVal.str "Other")]],
        NoReasonNamed "Patient Request" r = true)
    ∧ reschedule_appointment
        (.ok (.obj [("items", .arr [.obj [("name", .str "Other")]])]) [] 200) (.fail "never sent")
      = (failEnv "A valid reschedule reason ('Patient Request') could not be found.", false) :=
  ⟨by decide,
   reason_resolution_guard.1 [.obj [("name", .str "Other")]]
     [("items", .arr [.obj [("name", .str "Other")]])] [] 200 (.fail "never sent") rfl (by decide)⟩

/-- For a well-typed slot, the two count reads of the loop are the numbers
`slotTC` and `slotAC`. -/
theorem slotWT_counts (kvs : List (String × JVal)) (h : SlotWT (.obj kvs) = true) :
    (kvs.lookup "timeslotCount").getD (.num 0) = .num (slotTC (.obj kvs))
    ∧ (kvs.lookup "appointmentCount").getD (.num 0) = .num (slotAC (.obj kvs)) := by
  simp only [SlotWT, Bool.and_eq_true] at h
  obtain ⟨h1, h2⟩ := h
  constructor
  · cases ht : kvs.lookup "timeslotCount" with
    | none => simp [slotTC, ht]
    | some v => rw [ht] at h1; cases v <;> simp_all [slotTC, ht]
  · cases ha : kvs.lookup "appointmentCount" with
    | none => simp [slotAC, ha]
    | some v => rw [ha] at h2; cases v <;> simp_all [slotAC, ha]

/-- On a list of well-typed slots the availability loop is exactly the
filter keeping slots with `appointmentCount < timeslotCount`. -/
theorem filterSlots_eq_filter :
    ∀ (slots : List JVal), (∀ s ∈ slots, SlotWT s = true) →
    filterSlots slots = .ok (slots.filter (fun s => decide (slotAC s < slotTC s))) := by
  intro slots
  induction slots with
  | nil => intro _; rfl
  | cons s rest ih =>
    intro h
    have hs := h s (by simp)
    have hrest : ∀ x ∈ rest, SlotWT x = true :=
      fun x hx => h x (List.mem_cons_of_mem _ hx)
    cases s with
    | obj kvs =>
      obtain ⟨h1, h2⟩ := slotWT_counts kvs hs
      simp only [filterSlots, h1, h2, pyGt, JVal.asNum, List.filter_cons]
      by_cases hc : slotAC (.obj kvs) < slotTC (.obj kvs)
      · simp [hc, ih hrest, Except.map]
      · simp [hc, ih hrest]
    | null => simp [SlotWT] at hs
    | bool b => simp [SlotWT] at hs
    | num n => simp [SlotWT] at hs
    | str t => simp [SlotWT] at hs
    | arr xs => simp [SlotWT] at hs

/-- C5: with a configured location and a successful upstream query whose
items are well-typed slot entries, a slot appears in `available_slots` if
and only if it is an upstream entry whose `timeslotCount` strictly exceeds
its `appointmentCount` — independent of the order of the input list. -/
theorem slot_filtering_iff (loc : Option String) (hl : optTruthy loc = true)
    (kvs : List (String × JVal)) (h : List (String × String)) (c : Int)
    (slots : List JVal) (hitems : kvs.lookup "items" = some (.arr slots))
    (hwt : ∀ s ∈ slots, SlotWT s = true) :
    ∃ kept, get_available_slots loc (.ok (.obj kvs) h c)
        = .obj [("success", .bool true), ("available_slots", .arr kept)]
      ∧ ∀ slot, (slot ∈ kept ↔ slot ∈ slots ∧ slotAC slot < slotTC slot) := by
  refine ⟨slots.filter (fun s => decide (slotAC s < slotTC s)), ?_, ?_⟩
  · simp [get_available_slots, hl, pyGetD, hitems, iterJ, filterSlots_eq_filter slots hwt]
  · intro slot
    simp [List.mem_filter]

/-- C5 witness: two slots, one with spare capacity and one full. -/
theorem slot_filtering_iff_witness :
    optTruthy (some "loc-1") = true ∧
    (∀ s ∈ [JVal.obj [("timeslotCount", JVal.num 3), ("appointmentCount", JVal.num 1)],
            JVal.obj [("timeslotCount", JVal.num 2), ("appointmentCount", JVal.num 2)]],
      SlotWT s = true) ∧
    ∃ kept, get_available_slots (some "loc-1")
        (.ok (.obj [("items", .arr
          [.obj [("timeslotCount", .num 3), ("appointmentCount", .num 1)],
           .obj [("timeslotCount", .num 2), ("appointmentCount", .num 2)]])]) [] 200)
        = .obj [("success", .bool true), ("available_slots", .arr kept)]
      ∧ ∀ slot, (slot ∈ kept ↔
          slot ∈ [JVal.obj [("timeslotCount", JVal.num 3), ("appointmentCount", JVal.num 1)],
                  JVal.obj [("timeslotCount", JVal.num 2), ("appointmentCount", JVal.num 2)]]
          ∧ slotAC slot < slotTC slot) :=
  ⟨rfl, by decide,
   slot_filtering_iff (some "loc-1") rfl
     [("items", .arr [.obj [("timeslotCount", .num 3), ("appointmentCount", .num 1)],
                      .obj [("timeslotCount", .num 2), ("appointmentCount", .num 2)]])]
     [] 200
     [.obj [("timeslotCount", .num 3), ("appointmentCount", .num 1)],
      .obj [("timeslotCount", .num 2), ("appointmentCount", .num 2)]]
     rfl (by decide)⟩

/-- C10: a slot entry missing `timeslotCount` or `appointmentCount` has the
missing value read as 0 for the comparison, and in the full operation a slot
missing `timeslotCount` is excluded from `available_slots` whenever its
(possibly defaulted) `appointmentCount` is non-negative — in particular when
both fields are missing. -/
theorem missing_counts_default_zero :
    (∀ kvs : List (String × JVal), kvs.lookup "timeslotCount" = none →
      slotTC (.obj kvs) = 0)
    ∧ (∀ kvs : List (String × JVal), kvs.lookup "appointmentCount" = none →
      slotAC (.obj kvs) = 0)
    ∧ (∀ (loc : Option String), optTruthy loc = true →
       ∀ (kvs : List (String × JVal)) (h : List (String × String)) (c : Int)
         (slots : List JVal),
       kvs.lookup "items" = some (.arr slots) →
       (∀ s ∈ slots, SlotWT s = true) →
       ∃ kept, get_available_slots loc (.ok (.obj kvs) h c)
           = .obj [("success", .bool true), ("available_slots", .arr kept)]
         ∧ ∀ (slot : JVal) (skvs : List (String × JVal)),
             slot = .obj skvs → skvs.lookup "timeslotCount" = none →
             0 ≤ slotAC slot → slot ∉ kept) := by
  refine ⟨?_, ?_, ?_⟩
  · intro kvs hm; simp [slotTC, hm]
  · intro kvs hm; simp [slotAC, hm]
  · intro loc hl kvs h c slots hitems hwt
    refine ⟨slots.filter (fun s => decide (slotAC s < slotTC s)), ?_, ?_⟩
    · simp [get_available_slots, hl, pyGetD, hitems, iterJ, filterSlots_eq_filter slots hwt]
    · intro slot skvs hslot hmiss hac hmem
      rw [List.mem_filter] at hmem
      have htc : slotTC slot = 0 := by rw [hslot]; simp [slotTC, hmiss]
      have := of_decide_eq_true hmem.2
      omega

/-- C10 witness: a slot with both count fields missing is excluded. -/
theorem missing_counts_default_zero_witness :
    slotTC (.obj [("roomId", .str "r")]) = 0
    ∧ slotAC (.obj [("roomId", .str "r")]) = 0
    ∧ ∃ kept, get_available_slots (some "loc-1")
        (.ok (.obj [("items", .arr [.obj [("roomId", .str "r")]])]) [] 200)
        = .obj [("success", .bool true), ("available_slots", .arr kept)]
      ∧ JVal.obj [("roomId", .str "r")] ∉ kept := by
  refine ⟨missing_counts_default_zero.1 [("roomId", .str "r")] rfl,
          missing_counts_default_zero.2.1 [("roomId", .str "r")] rfl, ?_⟩
  obtain ⟨kept, hk, hex⟩ :=
    missing_counts_default_zero.2.2 (some "loc-1") rfl
      [("items", .arr [.obj [("roomId", .str "r")]])] [] 200
      [.obj [("roomId", .str "r")]] rfl (by decide)
  exact ⟨kept, hk, hex (.obj [("roomId", .str "r")]) [("roomId", .str "r")] rfl rfl (by decide)⟩

/-- A string-or-absent optional field reads as some string under the
`.get(..., "")` default. -/
theorem strOrAbsent_getD (o : Option JVal) (h : strOrAbsent o = true) :
    ∃ x, o.getD (.str "") = .str x := by
  cases o with
  | none => exact ⟨"", rfl⟩
  | some v => cases v <;> simp_all [strOrAbsent]

/-- A formattable detail body survives the formatting loop. -/
theorem format_appointment_isSome (catMap : List (JVal × JVal)) (b : JVal)
    (h : formattableWT b = true) : (format_appointment catMap b).isSome = true := by
  cases b with
  | obj kvs =>
    simp only [formattableWT, Bool.and_eq_true] at h
    obtain ⟨⟨h1, h2⟩, h3⟩ := h
    obtain ⟨ds, hds⟩ := strOrAbsent_getD _ h1
    obtain ⟨bs, hbs⟩ := strOrAbsent_getD _ h2
    simp [format_appointment, h3, hds, hbs]
  | null => simp [formattableWT] at h
  | bool b => simp [formattableWT] at h
  | num n => simp [formattableWT] at h
  | str t => simp [formattableWT] at h
  | arr xs => simp [formattableWT] at h

/-- A well-formed summary entry carries a non-empty string appointment id. -/
theorem goodSummary_id (kvs : List (String × JVal)) (h : GoodSummary (.obj kvs) = true) :
    ∃ i, (kvs.lookup "appointmentId").getD .null = .str i ∧ (i == "") = false := by
  simp only [GoodSummary] at h
  cases hv : (kvs.lookup "appointmentId").getD .null <;> rw [hv] at h <;> simp_all

/-- The category-map comprehension succeeds on well-formed summaries. -/
theorem buildCatMap_ok :
    ∀ (l : List JVal), (∀ s ∈ l, GoodSummary s = true) →
    ∃ m, buildCatMap l = .ok m := by
  intro l
  induction l with
  | nil => intro _; exact ⟨[], rfl⟩
  | cons s rest ih =>
    intro h
    have hs := h s (by simp)
    obtain ⟨m, hm⟩ := ih (fun x hx => h x (List.mem_cons_of_mem _ hx))
    cases s with
    | obj kvs =>
      obtain ⟨i, hi, _⟩ := goodSummary_id kvs hs
      exact ⟨(JVal.str i, (kvs.lookup "categoryIds").getD .null) :: m,
             by simp [buildCatMap, hi, hashableB, hm, Except.map]⟩
    | null => simp [GoodSummary] at hs
    | bool b => simp [GoodSummary] at hs
    | num n => simp [GoodSummary] at hs
    | str t => simp [GoodSummary] at hs
    | arr xs => simp [GoodSummary] at hs

/-- The number of entries surviving the detail fetch, truthiness filter and
formatting loop equals the number of summaries whose detail fetch succeeded. -/
theorem listing_count (catMap : List (JVal × JVal)) (fetch : JVal → ApiResult) :
    ∀ (l : List JVal),
      (∀ s ∈ l, GoodSummary s = true ∧ GoodDetail (fetch (apptIdOf s)) = true) →
      (((l.map (get_appointment_details fetch)).filterMap keepTruthy).filterMap
          (format_appointment catMap)).length
        = l.countP (fun s => !(isFail (fetch (apptIdOf s)))) := by
  intro l
  induction l with
  | nil => intro _; rfl
  | cons s rest ih =>
    intro h
    obtain ⟨hg, hd⟩ := h s (by simp)
    have hrest := fun x hx => h x (List.mem_cons_of_mem _ hx)
    rw [List.countP_cons]
    cases s with
    | obj kvs =>
      obtain ⟨i, hi, hine⟩ := goodSummary_id kvs hg
      have hid : apptIdOf (.obj kvs) = .str i := by simp [apptIdOf, hi]
      rw [hid] at hd
      cases hf : fetch (.str i) with
      | fail msg =>
        have hdet : get_appointment_details fetch (.obj kvs) = none := by
          simp [get_appointment_details, hi, JVal.truthy, hine, hf]
        have hkt : keepTruthy (get_appointment_details fetch (JVal.obj kvs)) = none := by
          rw [hdet]; rfl
        simp only [List.map_cons, List.filterMap_cons, hkt]
        rw [ih hrest]
        have hb : isFail (ApiResult.fail msg) = true := rfl
        simp [hid, hf, hb]
      | ok body hh cc =>
        rw [hf] at hd
        simp only [GoodDetail, Bool.and_eq_true] at hd
        obtain ⟨htr, hfm⟩ := hd
        have hdet : get_appointment_details fetch (.obj kvs) = some body := by
          simp [get_appointment_details, hi, JVal.truthy, hine, hf]
        have hkt : keepTruthy (get_appointment_details fetch (JVal.obj kvs)) = some body := by
          rw [hdet]; simp [keepTruthy, htr]
        obtain ⟨j, hj⟩ := Option.isSome_iff_exists.mp (format_appointment_isSome catMap body hfm)
        simp only [List.map_cons, List.filterMap_cons, hkt, hj]
        rw [List.length_cons, ih hrest]
        have hb : isFail (ApiResult.ok body hh cc) = false := rfl
        simp [hid, hf, hb]
    | null => simp [GoodSummary] at hg
    | bool b => simp [GoodSummary] at hg
    | num n => simp [GoodSummary] at hg
    | str t => simp [GoodSummary] at hg
    | arr xs => simp [GoodSummary] at hg

/-- Counting the complement of a Boolean predicate. -/
theorem countP_not_eq_sub {α : Type} (p : α → Bool) (l : List α) :
    l.countP (fun a => !(p a)) = l.length - l.countP p := by
  induction l with
  | nil => rfl
  | cons a l ih =>
    have hle := l.countP_le_length p
    rw [List.countP_cons, List.countP_cons]
    cases hp : p a
    · simp [ih, List.length_cons]
      omega
    · simp [ih, List.length_cons]

/-- The main branch of `get_patient_appointments` on a successful summary
with a non-empty items list and a successful category-map build. -/
theorem gpa_main (kvs : List (String × JVal)) (h : List (String × String)) (c : Int)
    (fetch : JVal → ApiResult) (summaries : List JVal) (m : List (JVal × JVal))
    (hitems : kvs.lookup "items" = some (.arr summaries))
    (hne : summaries.isEmpty = false)
    (hm : buildCatMap summaries = .ok m) :
    get_patient_appointments (.ok (.obj kvs) h c) fetch
      = (if (((summaries.map (get_appointment_details fetch)).filterMap keepTruthy).filterMap
              (format_appointment m)).isEmpty && !summaries.isEmpty then
           failEnv "Could not retrieve details for the patient's appointments."
         else
           .obj [("success", .bool true),
                 ("appointments", .arr (((summaries.map (get_appointment_details fetch)).filterMap
                     keepTruthy).filterMap (format_appointment m)))]) := by
  simp [get_patient_appointments, pyGetD, hitems, JVal.truthy, hne, iterJ, hm]

/-- C2: an empty summary yields the no-upcoming-appointments success message;
with N well-formed summaries of which K detail fetches fail, 0 < K < N yields
a success envelope with exactly N−K formatted entries, while K = N yields the
failure envelope. -/
theorem appointment_listing_counts :
    (∀ (kvs : List (String × JVal)) (h : List (String × String)) (c : Int)
        (fetch : JVal → ApiResult),
      kvs.lookup "items" = some (.arr []) →
      get_patient_appointments (.ok (.obj kvs) h c) fetch
        = .obj [("success", .bool true),
                ("message", .str "This patient has no upcoming appointments.")])
    ∧ (∀ (kvs : List (String × JVal)) (h : List (String × String)) (c : Int)
        (fetch : JVal → ApiResult) (summaries : List JVal),
      kvs.lookup "items" = some (.arr summaries) →
      (∀ s ∈ summaries, GoodSummary s = true ∧ GoodDetail (fetch (apptIdOf s)) = true) →
      (0 < summaries.countP (fun s => isFail (fetch (apptIdOf s))) →
       summaries.countP (fun s => isFail (fetch (apptIdOf s))) < summaries.length →
        ∃ fs, get_patient_appointments (.ok (.obj kvs) h c) fetch
            = .obj [("success", .bool true), ("appointments", .arr fs)]
          ∧ fs.length
              = summaries.length - summaries.countP (fun s => isFail (fetch (apptIdOf s))))
      ∧ (summaries.countP (fun s => isFail (fetch (apptIdOf s))) = summaries.length →
         0 < summaries.length →
        get_patient_appointments (.ok (.obj kvs) h c) fetch
          = failEnv "Could not retrieve details for the patient's appointments.")) := by
  constructor
  · intro kvs h c fetch hitems
    simp [get_patient_appointments, pyGetD, hitems, JVal.truthy]
  · intro kvs h c fetch summaries hitems hgood
    obtain ⟨m, hm⟩ := buildCatMap_ok summaries (fun s hs => (hgood s hs).1)
    have hflen :
        (((summaries.map (get_appointment_details fetch)).filterMap keepTruthy).filterMap
            (format_appointment m)).length
          = summaries.length - summaries.countP (fun s => isFail (fetch (apptIdOf s))) := by
      rw [listing_count m fetch summaries hgood]
      exact countP_not_eq_sub _ _
    constructor
    · intro hK0 hKN
      have hne : summaries.isEmpty = false := by
        cases summaries with
        | nil => simp at hKN
        | cons a l => rfl
      have hfne :
          (((summaries.map (get_appointment_details fetch)).filterMap keepTruthy).filterMap
              (format_appointment m)).isEmpty = false := by
        cases hfe : (((summaries.map (get_appointment_details fetch)).filterMap
            keepTruthy).filterMap (format_appointment m)) with
        | nil => rw [hfe] at hflen; simp at hflen; omega
        | cons a l => rfl
      refine ⟨_, ?_, hflen⟩
      rw [gpa_main kvs h c fetch summaries m hitems hne hm, hfne]
      simp
    · intro hKN hN
      have hne : summaries.isEmpty = false := by
        cases summaries with
        | nil => simp at hN
        | cons a l => rfl
      have hfe :
          (((summaries.map (get_appointment_details fetch)).filterMap keepTruthy).filterMap
              (format_appointment m)) = [] := by
        rw [hKN] at hflen
        simp only [Nat.sub_self] at hflen
        exact List.length_eq_zero.mp hflen
      rw [gpa_main kvs h c fetch summaries m hitems hne hm, hfe]
      simp [hne]

/-- C2 witness: two summaries where exactly one detail fetch fails, yielding
one formatted appointment. -/
theorem appointment_listing_counts_witness :
    (∀ s ∈ [JVal.obj [("appointmentId", JVal.str "a1")],
            JVal.obj [("appointmentId", JVal.str "a2")]],
       GoodSummary s = true
       ∧ GoodDetail ((fun v => match v with
            | JVal.str t => if t == "a1" then ApiResult.fail "boom"
                            else ApiResult.ok (.obj [("id", .str "a2")]) [] 200
            | _ => ApiResult.fail "") (apptIdOf s)) = true)
    ∧ ∃ fs, get_patient_appointments
          (.ok (.obj [("items", .arr [.obj [("appointmentId", .str "a1")],
                                      .obj [("appointmentId", .str "a2")]])]) [] 200)
          (fun v => match v with
            | JVal.str t => if t == "a1" then ApiResult.fail "boom"
                            else ApiResult.ok (.obj [("id", .str "a2")]) [] 200
            | _ => ApiResult.fail "")
        = .obj [("success", .bool true), ("appointments", .arr fs)]
      ∧ fs.length = 1 :=
  ⟨by decide,
   (appointment_listing_counts.2
      [("items", .arr [.obj [("appointmentId", .str "a1")],
                       .obj [("appointmentId", .str "a2")]])]
      [] 200
      (fun v => match v with
        | JVal.str t => if t == "a1" then ApiResult.fail "boom"
                        else ApiResult.ok (.obj [("id", .str "a2")]) [] 200
        | _ => ApiResult.fail "")
      [.obj [("appointmentId", .str "a1")], .obj [("appointmentId", .str "a2")]]
      rfl (by decide)).1 (by decide) (by decide)⟩
